import Mathlib

/-!
# MusicBotik — verification of the voice-session / playback core

Shallow embedding of `src/core/music.py` (`MusicManager`), the per-chat
voice-session registry and the play pipeline (download → convert → install),
together with the handler-level behaviour of `src/core/client.py` that the
claims reference.

Modelling decisions, all taken from the source:
* The registry `self.group_calls : Dict[int, GroupCallFile]` becomes an
  association list `List (Int × GroupCall)`.  A `GroupCall` carries a
  `callId : Nat` standing for Python object identity (allocated from a
  counter `nextCallId`, which is model machinery, not program state) and the
  `input_filename` attribute that `play_audio` assigns.
* The filesystem becomes an association list from paths to contents.  Paths
  are an inductive type mirroring the three disjoint path families the code
  uses: the fixed yt-dlp output template `data/downloads/ytdl_out.<ext>`
  (note: one shared template for ALL chats, from `ytdlopts["outtmpl"]`),
  the per-chat raw artifact `f"{chat_id}.raw"`, and attachment copies
  downloaded by telethon.  File contents record only provenance: which
  source string a file was fetched from, and whether it has been transcoded.
* External effects that can fail (yt-dlp, ffmpeg, `group_call.stop()`,
  `restart_playout()`) take a Boolean oracle saying whether the external
  call succeeds; the functions then follow the source's `try/except`
  structure exactly.
* Every operation also returns the list of external adapter calls it issued,
  so that "no transport call is made" style claims are statable.
* `PYTGCALLS_AVAILABLE` is taken to be `true` (the import succeeded).
-/

/-- File paths used by `MusicManager`.  `ytdlOut ext` is
`data/downloads/ytdl_out.<ext>` (the single, chat-independent yt-dlp output
template); `rawFile chat` is `f"{chat_id}.raw"`; `attach name` is a file
telethon wrote for a replied-to audio attachment. -/
inductive FPath where
  | ytdlOut (ext : String)
  | rawFile (chat : Int)
  | attach (name : String)
  deriving DecidableEq, Repr

/-- Provenance-tracking file contents: a file fetched from `source` by
yt-dlp / telethon, or the raw PCM produced by transcoding a file whose
provenance was `origin`. -/
inductive FileContent where
  | downloaded (source : String)
  | rawPCM (origin : String)
  deriving DecidableEq, Repr

/-- The source string a file's bytes ultimately derive from. -/
def FileContent.origin : FileContent → String
  | .downloaded s => s
  | .rawPCM s => s

/-- One entry of `self.group_calls`: the pytgcalls file-group-call object for
a chat.  `callId` models Python object identity; `input_filename` is the
attribute assigned by `play_audio` / `play_from_file`. -/
structure GroupCall where
  callId : Nat
  input_filename : Option FPath
  deriving DecidableEq, Repr

/-- Association-list lookup (Python `dict` / filesystem lookup). -/
def alGet {κ α : Type} [DecidableEq κ] : List (κ × α) → κ → Option α
  | [], _ => none
  | (k, v) :: r, key => if k = key then some v else alGet r key

/-- Association-list update: replace the binding of `key` if present,
otherwise add one (Python `d[key] = v` / writing a file). -/
def alPut {κ α : Type} [DecidableEq κ] : List (κ × α) → κ → α → List (κ × α)
  | [], key, a => [(key, a)]
  | (k, v) :: r, key, a =>
      if k = key then (key, a) :: r else (k, v) :: alPut r key a

/-- Association-list deletion (Python `del d[key]` / `os.remove`, a no-op
when the key is absent, matching the guarded `if os.path.exists` /
`except FileNotFoundError` uses in the source). -/
def alDel {κ α : Type} [DecidableEq κ] (l : List (κ × α)) (key : κ) :
    List (κ × α) :=
  l.filter (fun p => decide (p.1 ≠ key))

/-- Whole state of a `MusicManager` plus the filesystem it touches. -/
structure MMState where
  group_calls : List (Int × GroupCall)
  fs : List (FPath × FileContent)
  nextCallId : Nat
  deriving DecidableEq, Repr

/-- Python `chat_id in self.group_calls`. -/
def dictContains (l : List (Int × GroupCall)) (chat : Int) : Bool :=
  (alGet l chat).isSome

/-- Does a file exist. -/
def fsExists (fs : List (FPath × FileContent)) (p : FPath) : Bool :=
  (alGet fs p).isSome

/-- Does this path match the glob `data/downloads/ytdl_out.*`. -/
def FPath.isYtdlOut : FPath → Bool
  | .ytdlOut _ => true
  | _ => false

/-- The cleanup loop at the top of `download_audio`:
`for file in self.downloads_dir.glob("ytdl_out.*"): file.unlink()`. -/
def clearDownloads (fs : List (FPath × FileContent)) :
    List (FPath × FileContent) :=
  fs.filter (fun p => !(p.1.isYtdlOut))

/-- The fixed download target `self.downloads_dir / "ytdl_out.mp3"`. -/
def ytdlOutPath : FPath := FPath.ytdlOut "mp3"

/-- The keyword arguments `convert_audio` passes to `ffmpeg.output`. -/
structure TranscodeFormat where
  format : String
  acodec : String
  ac : Nat
  ar : String
  deriving DecidableEq, Repr

/-- The format `convert_audio` always uses:
`format="s16le", acodec="pcm_s16le", ac=2, ar="48k"`. -/
def voiceModFormat : TranscodeFormat :=
  { format := "s16le", acodec := "pcm_s16le", ac := 2, ar := "48k" }

/-- External (adapter) calls an operation issues, for stating
"no transport / fetch / transcode call happens" claims. -/
inductive AdapterCall where
  | fetch (source : String)
  | transcode (input output : FPath) (fmt : TranscodeFormat)
  | setInput (chat : Int) (file : FPath)
  | stopTransport (chat : Int)
  | restartPlayout (chat : Int)
  deriving DecidableEq, Repr

/-- `MusicManager._get_call` (source name `_get_call`): return the existing
group call for `chat`, or create and register a fresh one.  `createOk` is
false when the `GroupCallFactory` constructor raises, in which case the
exception propagates (`Except.error`) and nothing is stored. -/
def get_call (s : MMState) (chat : Int) (createOk : Bool) :
    Except Unit (GroupCall × MMState) :=
  match alGet s.group_calls chat with
  | some gc => Except.ok (gc, s)
  | none =>
      if createOk then
        let gc : GroupCall := { callId := s.nextCallId, input_filename := none }
        Except.ok (gc,
          { s with group_calls := alPut s.group_calls chat gc,
                   nextCallId := s.nextCallId + 1 })
      else Except.error ()

/-- `MusicManager.download_audio`: clear `ytdl_out.*` leftovers, run yt-dlp
(`dlOk` = it produced `ytdl_out.mp3`), return the path if the file now
exists, else `none` (both the no-file case and the exception case return
`None` in the source). -/
def download_audio (s : MMState) (source : String) (dlOk : Bool) :
    Option FPath × MMState × List AdapterCall :=
  let fs1 := clearDownloads s.fs
  let fs2 := if dlOk then alPut fs1 ytdlOutPath (FileContent.downloaded source)
             else fs1
  if fsExists fs2 ytdlOutPath then
    (some ytdlOutPath, { s with fs := fs2 }, [AdapterCall.fetch source])
  else
    (none, { s with fs := fs2 }, [AdapterCall.fetch source])

/-- `MusicManager.convert_audio`: remove a pre-existing `{chat_id}.raw`,
run ffmpeg with the fixed format (`ffOk` = the ffmpeg run succeeds; it also
fails when the input file does not exist), on success delete the input file
and return the output path; on failure re-raise (`Except.error`). -/
def convert_audio (s : MMState) (input_file : FPath) (chat : Int)
    (ffOk : Bool) : Except Unit FPath × MMState × List AdapterCall :=
  let output_file := FPath.rawFile chat
  let fs1 := alDel s.fs output_file
  let tcall := [AdapterCall.transcode input_file output_file voiceModFormat]
  if ffOk then
    match alGet fs1 input_file with
    | some c =>
        let fs2 := alPut fs1 output_file (FileContent.rawPCM c.origin)
        let fs3 := alDel fs2 input_file
        (Except.ok output_file, { s with fs := fs3 }, tcall)
    | none => (Except.error (), { s with fs := fs1 }, tcall)
  else
    (Except.error (), { s with fs := fs1 }, tcall)

/-- The assignment `self.group_calls[chat_id].input_filename = raw_file`. -/
def setInputFilename (s : MMState) (chat : Int) (file : FPath) : MMState :=
  match alGet s.group_calls chat with
  | some gc =>
      { s with group_calls :=
          alPut s.group_calls chat { gc with input_filename := some file } }
  | none => s

/-- `MusicManager.play_audio`: reject when not joined, else download,
convert, and install the raw file on the group call; any failure returns
`False` (the `except` branch). -/
def play_audio (s : MMState) (chat : Int) (source : String)
    (dlOk ffOk : Bool) : Bool × MMState × List AdapterCall :=
  if dictContains s.group_calls chat then
    match download_audio s source dlOk with
    | (some audio_file, s1, calls1) =>
        match convert_audio s1 audio_file chat ffOk with
        | (Except.ok raw_file, s2, calls2) =>
            (true, setInputFilename s2 chat raw_file,
              calls1 ++ calls2 ++ [AdapterCall.setInput chat raw_file])
        | (Except.error _, s2, calls2) => (false, s2, calls1 ++ calls2)
    | (none, s1, calls1) => (false, s1, calls1)
  else (false, s, [])

/-- `MusicManager.play_from_file`: like `play_audio` but the fetch stage is
skipped — the caller (the `.play` handler replying to an audio attachment)
already produced a local file. -/
def play_from_file (s : MMState) (chat : Int) (file_path : FPath)
    (ffOk : Bool) : Bool × MMState × List AdapterCall :=
  if dictContains s.group_calls chat then
    match convert_audio s file_path chat ffOk with
    | (Except.ok raw_file, s1, calls1) =>
        (true, setInputFilename s1 chat raw_file,
          calls1 ++ [AdapterCall.setInput chat raw_file])
    | (Except.error _, s1, calls1) => (false, s1, calls1)
  else (false, s, [])

/-- `MusicManager.leave_voice_chat`: when joined, call `stop()` on the group
call (`stopOk` = it does not raise); only if that succeeds, delete the
registry entry and remove `{chat_id}.raw` (ignoring `FileNotFoundError`).
When `stop()` raises, the `except` branch returns `False` with the entry and
the artifact untouched.  When not joined, return `False` untouched. -/
def leave_voice_chat (s : MMState) (chat : Int) (stopOk : Bool) :
    Bool × MMState × List AdapterCall :=
  if dictContains s.group_calls chat then
    if stopOk then
      (true,
        { s with group_calls := alDel s.group_calls chat,
                 fs := alDel s.fs (FPath.rawFile chat) },
        [AdapterCall.stopTransport chat])
    else (false, s, [AdapterCall.stopTransport chat])
  else (false, s, [])

/-- `MusicManager.replay_audio`: when joined, call `restart_playout()` on
the group call (`restartOk` = it does not raise) and report its outcome;
when not joined, return `False` with no transport call.  Note the source
never consults any prepared artifact here. -/
def replay_audio (s : MMState) (chat : Int) (restartOk : Bool) :
    Bool × MMState × List AdapterCall :=
  if dictContains s.group_calls chat then
    (restartOk, s, [AdapterCall.restartPlayout chat])
  else (false, s, [])

/-- Return value of `MusicManager.get_status`. -/
structure Status where
  connected : Bool
  chat_id : Int
  has_group_call : Bool
  deriving DecidableEq, Repr

/-- `MusicManager.get_status`: `is_connected = chat_id in self.group_calls`,
returned as both the `connected` and the `has_group_call` field; the state
is passed through to make the absence of mutation a stated fact. -/
def get_status (s : MMState) (chat : Int) : Status × MMState :=
  ({ connected := dictContains s.group_calls chat,
     chat_id := chat,
     has_group_call := dictContains s.group_calls chat }, s)

/-!
## Interleaved execution of `play_audio` pipelines

`play_audio` for one chat and the same command for another chat run as
separate asyncio handler tasks over the same `MusicManager` and the same
filesystem.  To state the concurrency claims we break one `play_audio`
invocation into its atomic effects, in source order, and let a schedule
interleave the steps of two invocations.  External fetch and transcode are
taken to succeed (failures still arise from the code's own existence
checks, e.g. when another run has deleted a file in between).

Arbitrary schedules over-approximate the source: the event loop switches
tasks only at awaits (the handlers' `respond`/`edit`/`download_media`),
and `download_audio`/`convert_audio` contain none — `ydl.extract_info` and
`ffmpeg...run()` block — so a `play_audio` body, once entered, runs to
completion uninterrupted.  A schedule is therefore used as evidence about
the source only when it is realizable at those suspension points: C1's
`sched_c1` suspends the first handler before its `play_audio` call (its
only in-body switch, after the cleanup of an empty download area, is a
no-op, so the computed state equals that of the realizable trace), and C2
quantifies over `realizableScheds`, the schedules whose pipeline blocks
are contiguous.
-/

/-- The atomic effects of one `play_audio` invocation, in source order:
membership check; the `ytdl_out.*` cleanup loop and the yt-dlp run and the
existence check inside `download_audio`; the output removal, the ffmpeg run
and the input deletion inside `convert_audio`; the `input_filename`
assignment. -/
inductive PipelineStep where
  | checkJoined
  | clearDL
  | doFetch
  | checkFetched
  | removeOld
  | doTranscode
  | deleteInput
  | install
  deriving DecidableEq, Repr

/-- The step sequence of one `play_audio` invocation. -/
def playSteps : List PipelineStep :=
  [PipelineStep.checkJoined, PipelineStep.clearDL, PipelineStep.doFetch,
   PipelineStep.checkFetched, PipelineStep.removeOld,
   PipelineStep.doTranscode, PipelineStep.deleteInput, PipelineStep.install]

/-- Task-local state of one `play_audio` invocation: its arguments, the
local variable `audio_file`, and whether the invocation has already taken a
`return False` path (after which its remaining steps do nothing). -/
structure PlayRun where
  chat : Int
  source : String
  audio_file : Option FPath
  failed : Bool
  deriving DecidableEq, Repr

/-- A fresh invocation `play_audio(chat, source)`. -/
def mkRun (chat : Int) (source : String) : PlayRun :=
  { chat := chat, source := source, audio_file := none, failed := false }

/-- Execute one atomic step of a `play_audio` invocation on the shared
state.  Each branch follows the corresponding line of the source. -/
def execStep (s : MMState) (r : PlayRun) : PipelineStep → MMState × PlayRun
  | .checkJoined =>
      if r.failed then (s, r)
      else if dictContains s.group_calls r.chat then (s, r)
      else (s, { r with failed := true })
  | .clearDL =>
      if r.failed then (s, r)
      else ({ s with fs := clearDownloads s.fs }, r)
  | .doFetch =>
      if r.failed then (s, r)
      else
        let fs1 := alPut s.fs ytdlOutPath (FileContent.downloaded r.source)
        ({ s with fs := fs1 }, r)
  | .checkFetched =>
      if r.failed then (s, r)
      else if fsExists s.fs ytdlOutPath then
        (s, { r with audio_file := some ytdlOutPath })
      else (s, { r with failed := true })
  | .removeOld =>
      if r.failed then (s, r)
      else ({ s with fs := alDel s.fs (FPath.rawFile r.chat) }, r)
  | .doTranscode =>
      if r.failed then (s, r)
      else
        match r.audio_file with
        | some a =>
            match alGet s.fs a with
            | some c =>
                let fs1 := alPut s.fs (FPath.rawFile r.chat)
                  (FileContent.rawPCM c.origin)
                ({ s with fs := fs1 }, r)
            | none => (s, { r with failed := true })
        | none => (s, { r with failed := true })
  | .deleteInput =>
      if r.failed then (s, r)
      else
        match r.audio_file with
        | some a => ({ s with fs := alDel s.fs a }, r)
        | none => (s, r)
  | .install =>
      if r.failed then (s, r)
      else (setInputFilename s r.chat (FPath.rawFile r.chat), r)

/-- Run two `play_audio` invocations under a schedule: `false` picks the
next pending step of run `a`, `true` of run `b`; picking a finished run
skips.  Returns the final shared state and both runs' task-local states. -/
def runSched (s : MMState) (ra : PlayRun) (sa : List PipelineStep)
    (rb : PlayRun) (sb : List PipelineStep) :
    List Bool → MMState × PlayRun × PlayRun
  | [] => (s, ra, rb)
  | pick :: rest =>
      if pick then
        match sb with
        | [] => runSched s ra sa rb [] rest
        | st :: sb' =>
            match execStep s rb st with
            | (s', rb') => runSched s' ra sa rb' sb' rest
      else
        match sa with
        | [] => runSched s ra sa rb [] rest
        | st :: sa' =>
            match execStep s ra st with
            | (s', ra') => runSched s' ra' sa' rb sb rest

/-!
## Scenario constants and claim formalizations
-/

/-- No duplicate chat ids in the registry ("at most one session per id"). -/
abbrev KeysNodup {κ α : Type} [DecidableEq κ] (l : List (κ × α)) : Prop :=
  (l.map Prod.fst).Nodup

/-- Chat 7 joined, nothing played yet. -/
def s0_c1 : MMState :=
  { group_calls := [(7, { callId := 0, input_filename := none })],
    fs := [], nextCallId := 1 }

/-- Schedule: the first invocation (for "oldsong") performs its membership
check and the download-area cleanup, is then suspended (its handler awaits
a message edit) while the superseding invocation (for "newsong") runs to
completion, and finally resumes and runs its remaining six steps. -/
def sched_c1 : List Bool :=
  [false, false] ++ List.replicate 8 true ++ List.replicate 6 false

/-- Interleave `play_audio(7, "oldsong")` (run `a`, in flight first) with
the superseding `play_audio(7, "newsong")` (run `b`) under `sched`. -/
def c1_run (sched : List Bool) : MMState × PlayRun × PlayRun :=
  runSched s0_c1 (mkRun 7 "oldsong") playSteps (mkRun 7 "newsong") playSteps
    sched

/-- The outcome C1 says can never happen: after the superseding run has
completed (not failed), the transport's active input for chat 7 is the raw
artifact and that artifact was produced from the superseded run's source. -/
def c1_staleInstalled (sched : List Bool) : Prop :=
  alGet (c1_run sched).1.group_calls 7
      = some { callId := 0, input_filename := some (FPath.rawFile 7) } ∧
  alGet (c1_run sched).1.fs (FPath.rawFile 7)
      = some (FileContent.rawPCM "oldsong") ∧
  (c1_run sched).2.2.failed = false

/-- Claim C1, instantiated at chat 7 with sources "oldsong"/"newsong": under
no interleaving is an artifact of the superseded run installed as the
active input. -/
def c1_claim : Prop := ∀ sched : List Bool, ¬ c1_staleInstalled sched

/-- Chats 1 and 2 both joined, nothing played yet. -/
def s0_c2 : MMState :=
  { group_calls := [(1, { callId := 0, input_filename := none }),
                    (2, { callId := 1, input_filename := none })],
    fs := [], nextCallId := 2 }

/-- One `.play` handler task at the granularity the source can realize:
the handler's own membership check (`src/core/client.py`) runs first, the
handler then suspends at its message awaits, and the whole `play_audio`
call that follows — whose body contains no suspension point, because
`ydl.extract_info` and `ffmpeg...run()` are synchronous blocking calls —
runs as one uninterrupted block of the eight `playSteps`. -/
def hplaySteps : List PipelineStep := PipelineStep.checkJoined :: playSteps

/-- The fine-grained schedules the source's event loop can actually produce
for two concurrently issued `.play` handlers: the loop switches tasks only
at the handlers' awaits, never inside a pipeline, so each task's eight
pipeline steps run contiguously and only the two handler checks and the two
whole pipeline blocks interleave — the six order-preserving merges. -/
def realizableScheds : List (List Bool) :=
  [[false] ++ List.replicate 8 false ++ [true] ++ List.replicate 8 true,
   [false] ++ [true] ++ List.replicate 8 false ++ List.replicate 8 true,
   [false] ++ [true] ++ List.replicate 8 true ++ List.replicate 8 false,
   [true] ++ [false] ++ List.replicate 8 false ++ List.replicate 8 true,
   [true] ++ [false] ++ List.replicate 8 true ++ List.replicate 8 false,
   [true] ++ List.replicate 8 true ++ [false] ++ List.replicate 8 false]

/-- Interleave the handler tasks `play_audio(1, "alpha")` and
`play_audio(2, "beta")` from `s0_c2` under a fine-grained schedule. -/
def c2h_run (sched : List Bool) : MMState × PlayRun × PlayRun :=
  runSched s0_c2 (mkRun 1 "alpha") hplaySteps (mkRun 2 "beta") hplaySteps
    sched

/-- A schedule that gives each task its nine steps but lets chat 2 make
progress while chat 1 is mid-pipeline (after chat 1's fetch, before its
transcode).  If the two pipelines really ran independently, with neither
blocking the other, the event loop could produce it. -/
def sched_bad : List Bool :=
  List.replicate 4 false ++ List.replicate 4 true ++
    List.replicate 5 false ++ List.replicate 5 true

/-- Claim C2, instantiated at chats 1 and 2 with sources "alpha"/"beta":
the two pipelines execute fully concurrently — neither ever waits on the
other, i.e. every division of the event loop that gives each task its nine
steps is realizable — and each chat's playback ends up with the artifact
produced from its own source. -/
def c2_claim : Prop :=
  (∀ sched : List Bool, sched.count false = 9 → sched.count true = 9 →
      sched ∈ realizableScheds) ∧
  (∀ sched ∈ realizableScheds,
      (c2h_run sched).2.1.failed = false ∧
      (c2h_run sched).2.2.failed = false ∧
      alGet (c2h_run sched).1.fs (FPath.rawFile 1)
          = some (FileContent.rawPCM "alpha") ∧
      alGet (c2h_run sched).1.fs (FPath.rawFile 2)
          = some (FileContent.rawPCM "beta"))

/-- Claim C3 as stated: after any `leave`, the registry no longer holds the
chat id and the per-chat raw artifact is absent — regardless of session
state and including when transport teardown fails. -/
def c3_claim : Prop :=
  ∀ (s : MMState) (chat : Int) (stopOk : Bool),
    dictContains (leave_voice_chat s chat stopOk).2.1.group_calls chat
        = false ∧
    fsExists (leave_voice_chat s chat stopOk).2.1.fs (FPath.rawFile chat)
        = false

/-- Chat 5 joined and playing its raw artifact. -/
def s3_state : MMState :=
  { group_calls := [(5, { callId := 0,
                          input_filename := some (FPath.rawFile 5) })],
    fs := [(FPath.rawFile 5, FileContent.rawPCM "x")], nextCallId := 1 }

/-- Claim C4 as stated: whenever any stage of the play pipeline fails, the
session's prior state — its raw artifact and its registry entry (hence the
transport input) — is left unchanged. -/
def c4_claim : Prop :=
  ∀ (s : MMState) (chat : Int) (src : String) (dlOk ffOk : Bool),
    (play_audio s chat src dlOk ffOk).1 = false →
    alGet (play_audio s chat src dlOk ffOk).2.1.fs (FPath.rawFile chat)
        = alGet s.fs (FPath.rawFile chat) ∧
    (play_audio s chat src dlOk ffOk).2.1.group_calls = s.group_calls

/-- Chat 3 joined, with a previously prepared raw artifact installed. -/
def s4_state : MMState :=
  { group_calls := [(3, { callId := 0,
                          input_filename := some (FPath.rawFile 3) })],
    fs := [(FPath.rawFile 3, FileContent.rawPCM "old")], nextCallId := 1 }

/-- Claim C6 as stated: when no raw artifact was ever prepared for the chat,
`replay` fails and issues no transport call. -/
def c6_claim : Prop :=
  ∀ (s : MMState) (chat : Int) (restartOk : Bool),
    alGet s.fs (FPath.rawFile chat) = none →
    (replay_audio s chat restartOk).1 = false ∧
    (replay_audio s chat restartOk).2.2 = []

/-- Chat 9 joined but nothing was ever played or prepared for it. -/
def s6_state : MMState :=
  { group_calls := [(9, { callId := 0, input_filename := none })],
    fs := [], nextCallId := 1 }

/-!
## Helper lemmas
-/

/-- Unfold one step of deletion. -/
@[simp] theorem alDel_cons {κ α : Type} [DecidableEq κ] (a : κ) (b : α)
    (r : List (κ × α)) (k : κ) :
    alDel ((a, b) :: r) k
      = if a = k then alDel r k else (a, b) :: alDel r k := by
  by_cases h : a = k <;> simp [alDel, List.filter_cons, h]

/-- Deletion of the empty list. -/
@[simp] theorem alDel_nil {κ α : Type} [DecidableEq κ] (k : κ) :
    alDel ([] : List (κ × α)) k = [] := rfl

/-- Unfold one step of the download-area cleanup. -/
@[simp] theorem clearDownloads_cons (a : FPath) (b : FileContent)
    (r : List (FPath × FileContent)) :
    clearDownloads ((a, b) :: r)
      = if a.isYtdlOut then clearDownloads r else (a, b) :: clearDownloads r
    := by
  by_cases h : a.isYtdlOut <;> simp [clearDownloads, List.filter_cons, h]

/-- Cleanup of the empty list. -/
@[simp] theorem clearDownloads_nil : clearDownloads [] = [] := rfl

/-- Writing a key makes it present with the written value. -/
@[simp] theorem alGet_alPut_self {κ α : Type} [DecidableEq κ]
    (l : List (κ × α)) (k : κ) (v : α) : alGet (alPut l k v) k = some v := by
  induction l with
  | nil => simp [alPut, alGet]
  | cons p r ih =>
      obtain ⟨a, b⟩ := p
      by_cases h : a = k
      · simp [alPut, alGet, h]
      · simp [alPut, alGet, h, ih]

/-- Deleting a key makes it absent. -/
@[simp] theorem alGet_alDel_self {κ α : Type} [DecidableEq κ]
    (l : List (κ × α)) (k : κ) : alGet (alDel l k) k = none := by
  induction l with
  | nil => simp [alGet]
  | cons p r ih =>
      obtain ⟨a, b⟩ := p
      by_cases h : a = k
      · simp [h, ih]
      · simp [alGet, h, ih]

/-- Deleting other keys does not change a lookup. -/
theorem alGet_alDel_ne {κ α : Type} [DecidableEq κ]
    (l : List (κ × α)) {k k' : κ} (h : k' ≠ k) :
    alGet (alDel l k) k' = alGet l k' := by
  induction l with
  | nil => simp
  | cons p r ih =>
      obtain ⟨a, b⟩ := p
      by_cases ha : a = k
      · subst ha
        simp [alGet, Ne.symm h, ih]
      · simp [ha, alGet, ih]

/-- Deletion is idempotent. -/
@[simp] theorem alDel_idem {κ α : Type} [DecidableEq κ]
    (l : List (κ × α)) (k : κ) : alDel (alDel l k) k = alDel l k := by
  induction l with
  | nil => simp
  | cons p r ih =>
      obtain ⟨a, b⟩ := p
      by_cases h : a = k
      · simp [h, ih]
      · simp [h, ih]

/-- A key is absent exactly when it is not among the stored keys. -/
theorem alGet_eq_none_iff {κ α : Type} [DecidableEq κ]
    (l : List (κ × α)) (k : κ) :
    alGet l k = none ↔ k ∉ l.map Prod.fst := by
  induction l with
  | nil => simp [alGet]
  | cons p r ih =>
      obtain ⟨a, b⟩ := p
      by_cases h : a = k
      · simp [alGet, h]
      · simp [alGet, h, ih, Ne.symm h]

/-- Writing an absent key appends the new binding at the end. -/
theorem alPut_of_absent {κ α : Type} [DecidableEq κ]
    {l : List (κ × α)} {k : κ} (v : α) (h : alGet l k = none) :
    alPut l k v = l ++ [(k, v)] := by
  induction l with
  | nil => simp [alPut]
  | cons p r ih =>
      obtain ⟨a, b⟩ := p
      by_cases ha : a = k
      · simp [alGet, ha] at h
      · simp only [alGet, if_neg ha] at h
        simp [alPut, ha, ih h]

/-- The download-area cleanup removes every `ytdl_out.*` file. -/
@[simp] theorem clearDownloads_ytdl (fs : List (FPath × FileContent))
    (e : String) : alGet (clearDownloads fs) (FPath.ytdlOut e) = none := by
  induction fs with
  | nil => simp [alGet]
  | cons p r ih =>
      obtain ⟨a, b⟩ := p
      cases a with
      | ytdlOut e' => simpa [FPath.isYtdlOut] using ih
      | rawFile c => simpa [FPath.isYtdlOut, alGet] using ih
      | attach n => simpa [FPath.isYtdlOut, alGet] using ih

/-- The download-area cleanup touches no per-chat raw artifact. -/
@[simp] theorem clearDownloads_rawFile (fs : List (FPath × FileContent))
    (c : Int) :
    alGet (clearDownloads fs) (FPath.rawFile c) = alGet fs (FPath.rawFile c)
    := by
  induction fs with
  | nil => simp
  | cons p r ih =>
      obtain ⟨a, b⟩ := p
      cases a with
      | ytdlOut e' => simpa [FPath.isYtdlOut, alGet] using ih
      | rawFile c' =>
          by_cases h : (FPath.rawFile c' : FPath) = FPath.rawFile c
          · simp [FPath.isYtdlOut, alGet, h]
          · simp only [clearDownloads_cons, FPath.isYtdlOut, Bool.false_eq_true, if_false, alGet, if_neg h]
            exact ih
      | attach n =>
          simp only [clearDownloads_cons, FPath.isYtdlOut, Bool.false_eq_true, if_false, alGet]
          exact ih

/-!
## Claims
-/

/-- C1: the claim — that a play command arriving while a pipeline for the
same chat is in flight cancels that pipeline, so that no artifact produced
by the superseded run is ever installed on the transport as the active
input — is false for this code: under the schedule `sched_c1` (realizable
in the source's cooperative scheduling, with the first handler suspended at
a message await), the superseded run later overwrites `7.raw` and installs
it, so after both invocations finish the active input is an artifact
derived from the superseded source. -/
theorem c1_counterexample : ¬ c1_claim := fun h =>
  h sched_c1 ⟨by decide, by decide, by decide⟩

/-- C1 (amended): `play_audio` has no cancellation mechanism; a superseding
play does not stop the in-flight run.  In the exhibited interleaving both
invocations run all their steps to completion (neither is ever told to
stop), and the first (superseded) run is the last to transcode and install,
leaving the transport's active input pointing at an artifact produced from
the superseded source "oldsong" even though the superseding play for
"newsong" completed. -/
theorem c1_theorem :
    (c1_run sched_c1).2.1.failed = false ∧
    (c1_run sched_c1).2.2.failed = false ∧
    alGet (c1_run sched_c1).1.group_calls 7
      = some { callId := 0, input_filename := some (FPath.rawFile 7) } ∧
    alGet (c1_run sched_c1).1.fs (FPath.rawFile 7)
      = some (FileContent.rawPCM "oldsong") := by decide

/-- C2: the claim — that two concurrently issued play commands for distinct
chats run their Fetch/Transcode pipelines fully independently, with neither
blocking the other — is false for this code: the pipeline bodies contain no
suspension point (`ydl.extract_info` and `ffmpeg...run()` are synchronous,
blocking calls), so once one chat's pipeline starts, the event loop — and
with it the other chat's pipeline — is stalled until it finishes.  The
schedule `sched_bad`, which merely lets chat 2 progress while chat 1 sits
between its fetch and its transcode, is not realizable. -/
theorem c2_counterexample : ¬ c2_claim := fun h =>
  absurd (h.1 sched_bad (by decide) (by decide)) (by decide)

/-- C2 (amended): the two pipelines do not run independently — each blocks
the event loop for its whole duration, so the only realizable executions
interleave the two handler checks with the two pipelines as contiguous
blocks (`sched_bad`, a fair division of loop time that suspends chat 1's
pipeline mid-way, is not among them); under that forced serialization every
realizable execution completes both plays and each chat's playback does use
the artifact produced from its own source. -/
theorem c2_theorem :
    sched_bad.count false = 9 ∧ sched_bad.count true = 9 ∧
    sched_bad ∉ realizableScheds ∧
    (∀ sched ∈ realizableScheds,
      (c2h_run sched).2.1.failed = false ∧
      (c2h_run sched).2.2.failed = false ∧
      alGet (c2h_run sched).1.fs (FPath.rawFile 1)
          = some (FileContent.rawPCM "alpha") ∧
      alGet (c2h_run sched).1.fs (FPath.rawFile 2)
          = some (FileContent.rawPCM "beta")) := by decide

/-- C2 witness: the serialized execution in which chat 1's whole pipeline
runs before chat 2's handler check — one of the realizable schedules —
ends with both plays complete and each chat's artifact from its own
source. -/
theorem c2_witness :
    (c2h_run ([false] ++ List.replicate 8 false ++ [true]
        ++ List.replicate 8 true)).2.1.failed = false ∧
    (c2h_run ([false] ++ List.replicate 8 false ++ [true]
        ++ List.replicate 8 true)).2.2.failed = false ∧
    alGet (c2h_run ([false] ++ List.replicate 8 false ++ [true]
        ++ List.replicate 8 true)).1.fs (FPath.rawFile 1)
        = some (FileContent.rawPCM "alpha") ∧
    alGet (c2h_run ([false] ++ List.replicate 8 false ++ [true]
        ++ List.replicate 8 true)).1.fs (FPath.rawFile 2)
        = some (FileContent.rawPCM "beta") :=
  c2_theorem.2.2.2
    ([false] ++ List.replicate 8 false ++ [true] ++ List.replicate 8 true)
    (by decide)

/-- C3: the claim — that `leave` always leaves the registry without the
chat id and the raw artifact absent, including when transport teardown
fails — is false for this code: when `group_call.stop()` raises, the
`except` branch returns before the `del` and the `os.remove`, so for the
joined-and-playing state `s3_state` the registry still holds chat 5 and
`5.raw` still exists. -/
theorem c3_counterexample : ¬ c3_claim := fun h =>
  absurd (h s3_state 5 false).1 (by decide)

/-- C3 (amended): when the chat is joined, `leave` removes the chat id from
the registry and deletes the per-chat raw artifact — with deletion a
harmless no-op when the chat never successfully played anything — only if
the transport `stop()` succeeds, while a raising `stop()` makes `leave`
report failure and leave both the registry entry and the artifact
untouched; and when the chat is not joined, `leave` returns failure with no
state change and no transport call. -/
theorem c3_theorem (s : MMState) (chat : Int) (stopOk : Bool) :
    (dictContains s.group_calls chat = true →
      (leave_voice_chat s chat true).1 = true ∧
      dictContains (leave_voice_chat s chat true).2.1.group_calls chat
        = false ∧
      fsExists (leave_voice_chat s chat true).2.1.fs (FPath.rawFile chat)
        = false ∧
      (leave_voice_chat s chat true).2.2
        = [AdapterCall.stopTransport chat] ∧
      (leave_voice_chat s chat false).1 = false ∧
      (leave_voice_chat s chat false).2.1 = s) ∧
    (dictContains s.group_calls chat = false →
      leave_voice_chat s chat stopOk = (false, s, [])) := by
  constructor
  · intro h
    have h' : (alGet s.group_calls chat).isSome = true := h
    simp [leave_voice_chat, dictContains, fsExists, h']
  · intro h
    have h' : (alGet s.group_calls chat).isSome = false := h
    simp [leave_voice_chat, dictContains, h']

/-- C3 witness: the amended behaviour at `s3_state` — chat 5 is joined and
playing, chat 6 was never joined. -/
theorem c3_witness :
    ((leave_voice_chat s3_state 5 true).1 = true ∧
     dictContains (leave_voice_chat s3_state 5 true).2.1.group_calls 5
       = false ∧
     fsExists (leave_voice_chat s3_state 5 true).2.1.fs (FPath.rawFile 5)
       = false ∧
     (leave_voice_chat s3_state 5 true).2.2
       = [AdapterCall.stopTransport 5] ∧
     (leave_voice_chat s3_state 5 false).1 = false ∧
     (leave_voice_chat s3_state 5 false).2.1 = s3_state) ∧
    leave_voice_chat s3_state 6 true = (false, s3_state, []) :=
  ⟨(c3_theorem s3_state 5 true).1 (by decide),
   (c3_theorem s3_state 6 true).2 (by decide)⟩

/-- C4: the claim — that a pipeline failure leaves the session's prior
state, including its previously installed raw artifact, unchanged — is
false for this code: `convert_audio` removes the existing `{chat_id}.raw`
before running ffmpeg, so when ffmpeg fails on `s4_state` (chat 3 playing
an artifact derived from "old"), `play_audio` returns failure but the
previously prepared artifact `3.raw` has been destroyed. -/
theorem c4_counterexample : ¬ c4_claim := fun h =>
  absurd (h s4_state 3 "new" true false (by decide)).1 (by decide)

/-- C4 (amended): a Fetch failure aborts the remaining stages, is reported,
and leaves the registry, the transport input and the raw artifact unchanged
(only the shared download area is cleared); a Transcode failure likewise
aborts and is reported with no install call and the registry and transport
input unchanged, but the previously prepared raw artifact has already been
deleted, so the transport input may now reference a missing file. -/
theorem c4_theorem (s : MMState) (chat : Int) (src : String) (ffOk : Bool)
    (h : dictContains s.group_calls chat = true) :
    (play_audio s chat src false ffOk).1 = false ∧
    (play_audio s chat src false ffOk).2.1.group_calls = s.group_calls ∧
    alGet (play_audio s chat src false ffOk).2.1.fs (FPath.rawFile chat)
      = alGet s.fs (FPath.rawFile chat) ∧
    (play_audio s chat src false ffOk).2.2 = [AdapterCall.fetch src] ∧
    (play_audio s chat src true false).1 = false ∧
    (play_audio s chat src true false).2.1.group_calls = s.group_calls ∧
    alGet (play_audio s chat src true false).2.1.fs (FPath.rawFile chat)
      = none ∧
    (play_audio s chat src true false).2.2
      = [AdapterCall.fetch src,
         AdapterCall.transcode ytdlOutPath (FPath.rawFile chat)
           voiceModFormat] := by
  refine ⟨?_, ?_, ?_, ?_, ?_, ?_, ?_, ?_⟩ <;>
    simp [play_audio, download_audio, convert_audio, h, fsExists,
      ytdlOutPath]

/-- C4 witness: the amended behaviour at `s4_state`. -/
theorem c4_witness :
    (play_audio s4_state 3 "new" false true).1 = false ∧
    (play_audio s4_state 3 "new" false true).2.1.group_calls
      = s4_state.group_calls ∧
    alGet (play_audio s4_state 3 "new" false true).2.1.fs (FPath.rawFile 3)
      = alGet s4_state.fs (FPath.rawFile 3) ∧
    (play_audio s4_state 3 "new" false true).2.2
      = [AdapterCall.fetch "new"] ∧
    (play_audio s4_state 3 "new" true false).1 = false ∧
    (play_audio s4_state 3 "new" true false).2.1.group_calls
      = s4_state.group_calls ∧
    alGet (play_audio s4_state 3 "new" true false).2.1.fs (FPath.rawFile 3)
      = none ∧
    (play_audio s4_state 3 "new" true false).2.2
      = [AdapterCall.fetch "new",
         AdapterCall.transcode ytdlOutPath (FPath.rawFile 3)
           voiceModFormat] :=
  c4_theorem s4_state 3 "new" true (by decide)

/-- C5: a `play` for a chat id with no transport handle in the registry is
rejected immediately: `play_audio` (URL path) and `play_from_file`
(attachment path) both return failure with the state unchanged and issue no
fetch, transcode or transport call.  The `.play` handler in
`src/core/client.py` additionally performs the same membership check before
invoking either. -/
theorem c5_theorem (s : MMState) (chat : Int) (src : String) (apath : FPath)
    (dlOk ffOk : Bool) (h : dictContains s.group_calls chat = false) :
    play_audio s chat src dlOk ffOk = (false, s, []) ∧
    play_from_file s chat apath ffOk = (false, s, []) := by
  simp [play_audio, play_from_file, h]

/-- C5 witness: chat 2 was never joined in `s6_state`. -/
theorem c5_witness :
    play_audio s6_state 2 "url" true true = (false, s6_state, []) ∧
    play_from_file s6_state 2 (FPath.attach "a.mp3") true
      = (false, s6_state, []) :=
  c5_theorem s6_state 2 "url" (FPath.attach "a.mp3") true true (by decide)

/-- C6: the claim — that `replay` for a chat with no previously prepared
raw artifact fails and issues no transport call — is false for this code:
`replay_audio` only checks registry membership, so for `s6_state` (chat 9
joined, nothing ever played) it calls `restart_playout()` on the transport
and returns success. -/
theorem c6_counterexample : ¬ c6_claim := fun h =>
  absurd (h s6_state 9 true (by decide)).2 (by decide)

/-- C6 (amended): `replay` fails with no transport call exactly when the
chat id is absent from the registry; when the chat is joined it issues
`restart_playout` on the transport regardless of whether an artifact was
ever prepared, reporting whatever the transport call returns. -/
theorem c6_theorem (s : MMState) (chat : Int) (restartOk : Bool) :
    (dictContains s.group_calls chat = false →
      replay_audio s chat restartOk = (false, s, [])) ∧
    (dictContains s.group_calls chat = true →
      replay_audio s chat restartOk
        = (restartOk, s, [AdapterCall.restartPlayout chat])) := by
  constructor <;> intro h <;> simp [replay_audio, h]

/-- C6 witness: the amended behaviour at `s6_state` for joined chat 9 and
never-joined chat 2. -/
theorem c6_witness :
    replay_audio s6_state 9 true
      = (true, s6_state, [AdapterCall.restartPlayout 9]) ∧
    replay_audio s6_state 2 true = (false, s6_state, []) :=
  ⟨(c6_theorem s6_state 9 true).2 (by decide),
   (c6_theorem s6_state 2 true).1 (by decide)⟩

/-- C7: `convert_audio` always issues exactly one transcode call with the
fixed target format — `s16le` container, `pcm_s16le` codec (16-bit signed
little-endian PCM), 2 channels, 48 kHz — writing to the per-chat name
`{chat_id}.raw`; its behaviour is unchanged if the pre-existing artifact at
that name is deleted first (i.e. the old artifact is removed before
converting and never contributes); its only successful result is the
per-chat artifact path; and on success the original input file — the same
single code path serves freshly downloaded files (`play_audio`) and
attachment copies (`play_from_file`) — has been deleted. -/
theorem c7_theorem (s : MMState) (input : FPath) (chat : Int)
    (ffOk : Bool) :
    (convert_audio s input chat ffOk).2.2
      = [AdapterCall.transcode input (FPath.rawFile chat) voiceModFormat] ∧
    voiceModFormat
      = { format := "s16le", acodec := "pcm_s16le", ac := 2, ar := "48k" } ∧
    convert_audio s input chat ffOk
      = convert_audio { s with fs := alDel s.fs (FPath.rawFile chat) }
          input chat ffOk ∧
    ((convert_audio s input chat ffOk).1 = Except.ok (FPath.rawFile chat) ∨
      (convert_audio s input chat ffOk).1 = Except.error ()) ∧
    ((convert_audio s input chat ffOk).1 = Except.error () ∨
      fsExists (convert_audio s input chat ffOk).2.1.fs input = false) := by
  cases hf : ffOk with
  | false => simp [convert_audio, fsExists, voiceModFormat]
  | true =>
      cases hget : alGet (alDel s.fs (FPath.rawFile chat)) input with
      | none => simp [convert_audio, hget, fsExists, voiceModFormat]
      | some c => simp [convert_audio, hget, fsExists, voiceModFormat]

/-- C8: every `download_audio` run issues exactly one fetch, and its result
never comes from a stale leftover: the cleanup loop runs before the fetch,
so when yt-dlp produces nothing the result is `none` and no `ytdl_out.mp3`
exists afterwards — even if a previous aborted run had left one — and when
yt-dlp succeeds the returned path holds this run's fresh download of
`source`. -/
theorem c8_theorem (s : MMState) (source : String) (dlOk : Bool) :
    (download_audio s source dlOk).2.2 = [AdapterCall.fetch source] ∧
    (download_audio s source false).1 = none ∧
    fsExists (download_audio s source false).2.1.fs ytdlOutPath = false ∧
    (download_audio s source true).1 = some ytdlOutPath ∧
    alGet (download_audio s source true).2.1.fs ytdlOutPath
      = some (FileContent.downloaded source) := by
  cases dlOk <;> simp [download_audio, fsExists, ytdlOutPath]

/-- C9: the registry holds at most one group call per chat id: `_get_call`
returns the existing object unchanged when the id is present; when absent
it registers exactly one fresh object; and any successful call preserves
key uniqueness and is idempotent — looking the same id up again returns the
very same object with no state change. -/
theorem c9_theorem (s : MMState) (chat : Int) (createOk : Bool)
    (h : KeysNodup s.group_calls) :
    (∀ gc, alGet s.group_calls chat = some gc →
        get_call s chat createOk = Except.ok (gc, s)) ∧
    (alGet s.group_calls chat = none → createOk = true →
        get_call s chat createOk = Except.ok
          ({ callId := s.nextCallId, input_filename := none },
            { s with
                group_calls := alPut s.group_calls chat
                  { callId := s.nextCallId, input_filename := none },
                nextCallId := s.nextCallId + 1 })) ∧
    (∀ gc s1, get_call s chat createOk = Except.ok (gc, s1) →
        KeysNodup s1.group_calls ∧
        get_call s1 chat true = Except.ok (gc, s1)) := by
  refine ⟨?_, ?_, ?_⟩
  · intro gc hgc
    simp [get_call, hgc]
  · intro hnone hok
    subst hok
    simp [get_call, hnone]
  · intro gc s1 heq
    cases hgc : alGet s.group_calls chat with
    | some gc0 =>
        simp [get_call, hgc] at heq
        obtain ⟨h1, h2⟩ := heq
        subst h1
        subst h2
        exact ⟨h, by simp [get_call, hgc]⟩
    | none =>
        cases hok : createOk with
        | false => simp [get_call, hgc, hok] at heq
        | true =>
            simp [get_call, hgc, hok] at heq
            obtain ⟨h1, h2⟩ := heq
            subst h1
            subst h2
            have hnotin : chat ∉ s.group_calls.map Prod.fst :=
              (alGet_eq_none_iff _ _).mp hgc
            constructor
            · rw [alPut_of_absent _ hgc]
              simp only [KeysNodup, List.map_append, List.map_cons,
                List.map_nil, List.nodup_append]
              exact ⟨h, List.nodup_singleton chat,
                fun a ha hb => by
                  simp only [List.mem_singleton] at hb
                  exact hnotin (hb ▸ ha)⟩
            · simp [get_call]

/-- C9 witness: looking up the already-registered chat 9 in `s6_state`
returns the existing object with no state change. -/
theorem c9_witness :
    get_call s6_state 9 true
      = Except.ok ({ callId := 0, input_filename := none }, s6_state) :=
  (c9_theorem s6_state 9 true (by decide)).1
    { callId := 0, input_filename := none } (by decide)

/-- C10: `get_status` mutates nothing — the state it was given is returned
untouched — and the `connected` flag and the `has_group_call` flag are both
exactly the registry-membership predicate, hence always equal; `chat_id`
echoes the argument. -/
theorem c10_theorem (s : MMState) (chat : Int) :
    (get_status s chat).2 = s ∧
    (get_status s chat).1.connected = (get_status s chat).1.has_group_call ∧
    (get_status s chat).1.connected = dictContains s.group_calls chat ∧
    (get_status s chat).1.chat_id = chat :=
  ⟨rfl, rfl, rfl, rfl⟩
